import Mathlib

/-!
Shallow embedding of `effect-react-query` (src/unnamed/part_000), an adapter
bridging Effect computations to TanStack Query.

The bridge (`useRunner`, lines 70-157 of part_000) pipes the user's effect
through `Effect.tapError` (typed-failure toasts), `Effect.tap` (success toast),
`Effect.tapErrorCause(Effect.logError)` (diagnostic log), `Effect.withSpan`,
runs it with `runtime.runPromiseExit`, and settles the promise with
`Exit.match`: a `Fail`-type cause rejects with the typed error itself, any
other cause rejects with `new QueryDefect({ cause: Cause.squash(cause) })`.

The embedding takes the exit of the user-supplied computation as input (the
execution context is an external collaborator) and computes the observable
trace of toast/log events together with the promise settlement.  The tap
combinators do not alter the exit, so the composed pipeline's exit equals the
underlying computation's exit; their side effects are recorded in pipe order.
-/

namespace EffectQuery

/-- Observable shape of a typed failure `E extends { _tag: string }`.
The bridge reads only `_tag` and (via `hasStringMessage`) a string-valued
`message` field; `message = some s` models a `message` property holding the
string `s`, `none` models an absent or non-string `message`.  `rest` stands
for any further kind-specific payload fields, which the bridge never touches. -/
structure EffError where
  tag : String
  message : Option String
  rest : List String
deriving DecidableEq, Repr

/-- Effect's `Cause<E>` algebra with `E := EffError`; `D` is the type of
defect values (`unknown` in the source). -/
inductive Cause (D : Type) where
  | empty
  | fail (error : EffError)
  | die (defect : D)
  | interrupt (fiberId : Nat)
  | sequential (left right : Cause D)
  | parallel (left right : Cause D)
deriving DecidableEq, Repr

/-- `Cause.isFailType(cause)`: the cause is exactly a single `Fail` node. -/
def Cause.isFailType {D : Type} : Cause D → Bool
  | .fail _ => true
  | _ => false

/-- `Cause.failureOption`: the first checked failure in the cause, scanning
left to right; this is what `Effect.tapError` fires on. -/
def Cause.failureOption {D : Type} : Cause D → Option EffError
  | .empty => none
  | .fail e => some e
  | .die _ => none
  | .interrupt _ => none
  | .sequential l r => (failureOption l).orElse (fun _ => failureOption r)
  | .parallel l r => (failureOption l).orElse (fun _ => failureOption r)

/-- `Cause.defects`: the defect values of the cause, in order. -/
def Cause.defects {D : Type} : Cause D → List D
  | .empty => []
  | .fail _ => []
  | .die d => [d]
  | .interrupt _ => []
  | .sequential l r => defects l ++ defects r
  | .parallel l r => defects l ++ defects r

/-- Result of `Cause.squash`: the first failure if any, else the first
defect, else a fresh `InterruptedException`. -/
inductive Squashed (D : Type) where
  | failure (error : EffError)
  | defect (defect : D)
  | interruptedException
deriving DecidableEq, Repr

/-- `Cause.squash(cause)` as used at line 143 of part_000. -/
def Cause.squash {D : Type} (c : Cause D) : Squashed D :=
  match c.failureOption with
  | some e => .failure e
  | none =>
    match c.defects.head? with
    | some d => .defect d
    | none => .interruptedException

/-- `class QueryDefect extends Data.TaggedError("QueryDefect")<{cause: unknown}>`
(lines 31-33); constructed as `new QueryDefect({ cause: Cause.squash(cause) })`. -/
structure QueryDefect (D : Type) where
  cause : Squashed D
deriving DecidableEq, Repr

/-- `Exit<A, E>` with `E := EffError`: outcome reported by
`runtime.runPromiseExit` for the user's computation. -/
inductive Exit (A D : Type) where
  | success (value : A)
  | failure (cause : Cause D)
deriving DecidableEq, Repr

/-- The `orElse` field of `toastifyErrors`: `boolean | string`, where the
sentinel `"extractMessage"` is itself just a string value (line 47). -/
inductive OrElseOpt where
  | bool (b : Bool)
  | str (s : String)
deriving DecidableEq, Repr

/-- The `toastifyDefects` option: `boolean | string` (line 51). -/
inductive DefectsOpt where
  | bool (b : Bool)
  | str (s : String)
deriving DecidableEq, Repr

/-- `UseRunnerOpts` (lines 50-54) after the destructuring at line 87, which
splits `toastifyErrors` into the per-tag handlers (`tagConfigs`) and the
fallback policy (`orElse`, defaulting to the string `"extractMessage"`).
Defaults mirror lines 75-77. -/
structure UseRunnerOpts (A : Type) where
  toastifyDefects : DefectsOpt := .bool true
  tagConfigs : List (String × (EffError → String)) := []
  orElse : OrElseOpt := .str "extractMessage"
  toastifySuccess : Option (A → String) := none

/-- Observable side effects of one bridge invocation: `toast.error`,
`toast.success`, and `Effect.logError` of the failure cause. -/
inductive Event (D : Type) where
  | toastError (message : String)
  | toastSuccess (message : String)
  | logErrorCause (cause : Cause D)
deriving DecidableEq, Repr

def DEFAULT_ERROR_MESSAGE : String := "Something went wrong"

def DEFAULT_DEFECT_MESSAGE : String := "An unexpected error occurred"

/-- `hasStringMessage(error)` (lines 35-41): the error is a record with a
string-valued `message` property. -/
def hasStringMessage (e : EffError) : Bool := e.message.isSome

/-- The fallback branch of the `tapError` handler (lines 103-115).  The match
rows mirror the if/else-if chain: row 1 is
`orElse === "extractMessage" && hasStringMessage(error)`, row 2 is
`typeof orElse === "string"`, row 3 is the `orElse === true` else-branch.
Note the chain's behaviour when `orElse` is the default `"extractMessage"`
and the error has no string `message`: row 1 fails but row 2 matches, so the
literal string `"extractMessage"` is toasted. -/
def fallbackToast {D : Type} (orElse : OrElseOpt) (error : EffError) :
    List (Event D) :=
  if orElse ≠ OrElseOpt.bool false then
    match orElse, error.message with
    | .str "extractMessage", some m => [.toastError m]
    | .str s, _ => [.toastError s]
    | _, _ => [.toastError DEFAULT_ERROR_MESSAGE]
  else []

/-- The full `tapError` handler body (lines 91-116): a tag handler, if one is
registered for the error's `_tag`, takes precedence and returns early;
otherwise the fallback chain runs. -/
def tapErrorToasts {A D : Type} (opts : UseRunnerOpts A) (error : EffError) :
    List (Event D) :=
  match opts.tagConfigs.lookup error.tag with
  | some tagHandler => [.toastError (tagHandler error)]
  | none => fallbackToast opts.orElse error

/-- `Effect.tapError` fires its handler exactly when the cause contains a
checked failure (`Cause.failureOrCause` yields a `Left`), passing the first
such failure. -/
def tapErrorEvents {A D : Type} (opts : UseRunnerOpts A) (cause : Cause D) :
    List (Event D) :=
  match cause.failureOption with
  | some error => tapErrorToasts opts error
  | none => []

/-- `Effect.tap` success handler (lines 118-122): toast `toastifySuccess
(result)` when the option is supplied. -/
def successToasts {A D : Type} (opts : UseRunnerOpts A) (value : A) :
    List (Event D) :=
  match opts.toastifySuccess with
  | some f => [.toastSuccess (f value)]
  | none => []

/-- The defect-notification block of the `Exit.match` failure branch
(lines 135-141): if `toastifyDefects !== false`, toast either the literal
string or the default defect message. -/
def defectToasts {D : Type} (toastifyDefects : DefectsOpt) : List (Event D) :=
  if toastifyDefects ≠ DefectsOpt.bool false then
    match toastifyDefects with
    | .str s => [.toastError s]
    | _ => [.toastError DEFAULT_DEFECT_MESSAGE]
  else []

/-- How the promise returned by the wrapped function settles. -/
inductive PromiseResult (A D : Type) where
  | resolve (value : A)
  | rejectError (error : EffError)
  | rejectDefect (defect : QueryDefect D)
deriving DecidableEq, Repr

/-- The `Exit.match` `onFailure` branch (lines 130-144): a `Fail`-type cause
throws `cause.error` itself; any other cause runs the defect toasts and
throws `new QueryDefect({ cause: Cause.squash(cause) })`.  The first match
row is the `Cause.isFailType(cause)` early return. -/
def settle {A D : Type} (opts : UseRunnerOpts A) (cause : Cause D) :
    List (Event D) × PromiseResult A D :=
  match cause with
  | .fail error => ([], .rejectError error)
  | _ => (defectToasts opts.toastifyDefects, .rejectDefect ⟨cause.squash⟩)

/-- One bridge invocation: the ordered event trace plus the settlement. -/
structure RunOutcome (A D : Type) where
  events : List (Event D)
  result : PromiseResult A D
deriving DecidableEq, Repr

/-- The wrapped function produced by `useRunner` (lines 84-147), as a function
of the exit of the underlying computation.  Pipe order on failure: the
`tapError` toasts fire first, then `tapErrorCause` logs the full cause, and
only then does `Exit.match` run the defect toasts and settle; on success the
`tap` success toast fires and the promise resolves with the value.
`Effect.withSpan` (the `_span` argument) does not alter the outcome. -/
def useRunner {A D : Type} (opts : UseRunnerOpts A) (_span : String)
    (exit : Exit A D) : RunOutcome A D :=
  match exit with
  | .success value => ⟨successToasts opts value, .resolve value⟩
  | .failure cause =>
    let settled := settle opts cause
    ⟨tapErrorEvents opts cause ++ [.logErrorCause cause] ++ settled.1,
     settled.2⟩

/-- The `queryFn` option a caller hands to an adapter: either the fetching
library's `skipToken` sentinel or a function from the query-function context
to an effect computation.  An effect computation is represented by the exit
it produces when run (the execution context is external); `Ctx` is the
query-function context (for the infinite variant it includes the page
parameter). -/
inductive QueryFnOpt (A D Ctx : Type) where
  | skipToken
  | fn (f : Ctx → Exit A D)

/-- The `queryFn` the adapter actually forwards to the fetching library:
either `skipToken` unchanged, or the bridge-wrapped promise-returning
function. -/
inductive ForwardedQueryFn (A D Ctx : Type) where
  | skipToken
  | fn (f : Ctx → RunOutcome A D)

/-- The `queryFn` field `useEffectQuery` passes to `useQuery` (line 300):
`options.queryFn === skipToken ? skipToken : queryFn`, where the wrapped
`queryFn` (lines 282-296) builds a fresh computation from the context and
routes it through the runner under the key's span name. -/
def useEffectQueryQueryFn {A D Ctx : Type} (opts : UseRunnerOpts A)
    (spanName : String) (queryFn : QueryFnOpt A D Ctx) :
    ForwardedQueryFn A D Ctx :=
  match queryFn with
  | .skipToken => .skipToken
  | .fn f => .fn (fun context => useRunner opts spanName (f context))

/-- The `queryFn` field `useEffectInfiniteQuery` passes to `useInfiniteQuery`
(line 393): `effectfulQueryFn === skipToken ? skipToken : queryFn`, where the
wrapped `queryFn` (lines 367-382) builds a fresh page computation from the
page context and routes it through the runner. -/
def useEffectInfiniteQueryQueryFn {A D Ctx : Type} (opts : UseRunnerOpts A)
    (spanName : String) (effectfulQueryFn : QueryFnOpt A D Ctx) :
    ForwardedQueryFn A D Ctx :=
  match effectfulQueryFn with
  | .skipToken => .skipToken
  | .fn f => .fn (fun context => useRunner opts spanName (f context))

/-- Modelled from the spec: the external fetching library's contract for the
skip sentinel (§4.2, P8) — when the forwarded `queryFn` is `skipToken` the
query is disabled and the function slot is never invoked (`none`: no bridge
run, no events); otherwise a fetch attempt invokes the forwarded function on
its context.  The library itself is an out-of-scope collaborator, specified
only at this interface. -/
def libFetch {A D Ctx : Type} (queryFn : ForwardedQueryFn A D Ctx)
    (context : Ctx) : Option (RunOutcome A D) :=
  match queryFn with
  | .skipToken => none
  | .fn f => some (f context)

/-- Events observed for one fetch attempt: none when the query is skipped. -/
def fetchEvents {A D Ctx : Type} (queryFn : ForwardedQueryFn A D Ctx)
    (context : Ctx) : List (Event D) :=
  match libFetch queryFn context with
  | none => []
  | some outcome => outcome.events

/-- The event is a `toast.error` call (a `notifyFailure` notification). -/
def isToastError {D : Type} : Event D → Bool
  | .toastError _ => true
  | _ => false

/-- The event is an `Effect.logError` diagnostic log. -/
def isLogEvent {D : Type} : Event D → Bool
  | .logErrorCause _ => true
  | _ => false

/-- Messages of the `toast.error` calls in a trace, in order. -/
def toastErrorMessages {D : Type} (events : List (Event D)) : List String :=
  events.filterMap (fun ev => match ev with
    | .toastError m => some m
    | _ => none)

/-- Number of `Effect.logError` events in a trace. -/
def countLogs {D : Type} (events : List (Event D)) : Nat :=
  events.countP (fun ev => isLogEvent ev)

/-- Concrete tag handler used by witnesses. -/
def sampleHandler : EffError → String := fun _ => "handled"

/-! ### Helper lemmas -/

theorem settle_of_not_failType {A D : Type} (opts : UseRunnerOpts A)
    (cause : Cause D) (h : cause.isFailType = false) :
    settle opts cause =
      (defectToasts opts.toastifyDefects, .rejectDefect ⟨cause.squash⟩) := by
  cases cause with
  | fail e => simp [Cause.isFailType] at h
  | empty => rfl
  | die d => rfl
  | interrupt i => rfl
  | sequential l r => rfl
  | parallel l r => rfl

theorem countLogs_fallbackToast {D : Type} (orElse : OrElseOpt)
    (e : EffError) : countLogs (fallbackToast (D := D) orElse e) = 0 := by
  unfold fallbackToast
  split
  · split <;> simp [countLogs, isLogEvent]
  · simp [countLogs]

theorem countLogs_tapErrorToasts {A D : Type} (opts : UseRunnerOpts A)
    (e : EffError) : countLogs (tapErrorToasts (D := D) opts e) = 0 := by
  unfold tapErrorToasts
  cases opts.tagConfigs.lookup e.tag with
  | some f => simp [countLogs, isLogEvent]
  | none => exact countLogs_fallbackToast _ e

theorem countLogs_tapErrorEvents {A D : Type} (opts : UseRunnerOpts A)
    (cause : Cause D) : countLogs (tapErrorEvents opts cause) = 0 := by
  cases h : cause.failureOption with
  | none => simp [tapErrorEvents, h, countLogs]
  | some e => simpa [tapErrorEvents, h] using countLogs_tapErrorToasts opts e

/-! ### Claim theorems -/

/-- C1: a computation completing with a typed failure (a `Fail`-type cause
carrying the error `e`) makes the wrapped function's promise reject with `e`
itself, unchanged and unwrapped — all payload fields included — whatever the
notification configuration. -/
theorem typed_failure_passthrough {A D : Type} (opts : UseRunnerOpts A)
    (span : String) (e : EffError) :
    (useRunner (D := D) opts span (.failure (.fail e))).result =
      .rejectError e := rfl

/-- C2: any failure outcome that is not a single typed failure (defects,
interruptions, composite causes) makes the promise reject with a
`QueryDefect` wrapping `Cause.squash` of the original cause — a dedicated
structured error, never the raw cause itself. -/
theorem defect_wrapping {A D : Type} (opts : UseRunnerOpts A) (span : String)
    (cause : Cause D) (h : cause.isFailType = false) :
    (useRunner opts span (.failure cause)).result =
      .rejectDefect ⟨cause.squash⟩ := by
  simp [useRunner, settle_of_not_failType opts cause h]

theorem defect_wrapping_witness :
    Cause.isFailType (Cause.die (7 : Nat)) = false ∧
    (useRunner (A := Nat) {} "span" (.failure (.die 7))).result =
      .rejectDefect ⟨.defect 7⟩ :=
  ⟨rfl, defect_wrapping {} "span" (.die 7) rfl⟩

/-- C3, evaluated at the failing input: under the default configuration
(`orElse = "extractMessage"`), a typed failure with no tag handler and no
string `message` field does NOT stay silent — the else-if chain of lines
103-115 falls into the `typeof orElse === "string"` branch and toasts the
literal sentinel string `"extractMessage"`, contradicting the specified
"no notification fires" behaviour. -/
theorem extractMessage_missing_message_toasts_sentinel :
    (useRunner (A := Nat) (D := Nat) {} "span"
        (.failure (.fail ⟨"X", none, []⟩))).events =
      [.toastError "extractMessage",
       .logErrorCause (.fail ⟨"X", none, []⟩)] := rfl

/-- C4: when the typed failure's tag has a handler in `toastifyErrors`, the
full trace of the invocation is exactly the handler's toast followed by the
diagnostic log: `notifyFailure` fires exactly once with the handler's result
and no fallback (`orElse`) notification fires, whatever `orElse` is set to;
the promise still rejects with the original typed failure. -/
theorem tag_handler_precedence {A D : Type} (opts : UseRunnerOpts A)
    (span : String) (e : EffError) (handler : EffError → String)
    (h : opts.tagConfigs.lookup e.tag = some handler) :
    useRunner (D := D) opts span (.failure (.fail e)) =
      ⟨[.toastError (handler e), .logErrorCause (.fail e)],
       .rejectError e⟩ := by
  simp [useRunner, tapErrorEvents, Cause.failureOption, tapErrorToasts, h,
    settle]

theorem tag_handler_precedence_witness :
    ([("X", sampleHandler)] : List (String × (EffError → String))).lookup "X"
        = some sampleHandler ∧
    useRunner (A := Nat) (D := Nat)
        { tagConfigs := [("X", sampleHandler)], orElse := .bool true } "span"
        (.failure (.fail ⟨"X", some "boom", []⟩)) =
      ⟨[.toastError "handled",
        .logErrorCause (.fail ⟨"X", some "boom", []⟩)],
       .rejectError ⟨"X", some "boom", []⟩⟩ :=
  ⟨rfl, tag_handler_precedence _ "span" _ sampleHandler rfl⟩

/-- C5 counterexample: the claim "for every defect outcome, if
`toastifyDefects` is false then `notifyFailure` is called zero times" fails
on a composite cause that contains a typed failure: the cause
`Sequential(Fail {_tag:"X", message:"boom"}, Die 7)` is classified as a
defect (the promise rejects with the `QueryDefect`), yet with
`toastifyDefects := false` the `tapError` typed-failure path still calls
`notifyFailure` once ("boom"), not zero times. -/
theorem defect_suppression_counterexample :
    (useRunner (A := Nat) (D := Nat) { toastifyDefects := .bool false }
          "span"
          (.failure (.sequential (.fail ⟨"X", some "boom", []⟩)
            (.die 7)))).events.countP (fun ev => isToastError ev) = 1 ∧
    (useRunner (A := Nat) (D := Nat) { toastifyDefects := .bool false }
          "span"
          (.failure (.sequential (.fail ⟨"X", some "boom", []⟩)
            (.die 7)))).result =
      .rejectDefect ⟨.failure ⟨"X", some "boom", []⟩⟩ :=
  ⟨rfl, rfl⟩

/-- C5 amended: for every defect outcome whose cause contains no typed
failure, the defect notification follows `toastifyDefects` exactly —
`false` gives zero `notifyFailure` calls, a literal string gives exactly one
call with that string, `true` gives exactly one call with the fixed default
defect message — and in every case the promise rejects with the
`QueryDefect` wrapping the squashed cause.  (When a defect-classified
composite cause does contain a typed failure, the typed-failure notification
path additionally fires for it, per the counterexample.) -/
theorem defect_notifications_follow_policy {A D : Type}
    (opts : UseRunnerOpts A) (span : String) (cause : Cause D) (s : String)
    (h1 : cause.isFailType = false) (h2 : cause.failureOption = none) :
    (toastErrorMessages (useRunner { opts with toastifyDefects := .bool false }
          span (.failure cause)).events = [] ∧
      (useRunner { opts with toastifyDefects := .bool false } span
          (.failure cause)).result = .rejectDefect ⟨cause.squash⟩) ∧
    (toastErrorMessages (useRunner { opts with toastifyDefects := .str s }
          span (.failure cause)).events = [s] ∧
      (useRunner { opts with toastifyDefects := .str s } span
          (.failure cause)).result = .rejectDefect ⟨cause.squash⟩) ∧
    (toastErrorMessages (useRunner { opts with toastifyDefects := .bool true }
          span (.failure cause)).events = [DEFAULT_DEFECT_MESSAGE] ∧
      (useRunner { opts with toastifyDefects := .bool true } span
          (.failure cause)).result = .rejectDefect ⟨cause.squash⟩) := by
  refine ⟨⟨?_, ?_⟩, ⟨?_, ?_⟩, ⟨?_, ?_⟩⟩ <;>
    simp [useRunner, settle_of_not_failType _ cause h1, tapErrorEvents, h2,
      toastErrorMessages, defectToasts]

theorem defect_notifications_follow_policy_witness :
    (Cause.isFailType (Cause.die (7 : Nat)) = false ∧
      Cause.failureOption (Cause.die (7 : Nat)) = none) ∧
    ((toastErrorMessages (useRunner (A := Nat)
          { toastifyDefects := .bool false } "span"
          (.failure (.die 7))).events = [] ∧
      (useRunner (A := Nat) { toastifyDefects := .bool false } "span"
          (.failure (.die 7))).result =
        .rejectDefect ⟨Cause.squash (.die 7)⟩) ∧
    (toastErrorMessages (useRunner (A := Nat)
          { toastifyDefects := .str "oops" } "span"
          (.failure (.die 7))).events = ["oops"] ∧
      (useRunner (A := Nat) { toastifyDefects := .str "oops" } "span"
          (.failure (.die 7))).result =
        .rejectDefect ⟨Cause.squash (.die 7)⟩) ∧
    (toastErrorMessages (useRunner (A := Nat)
          { toastifyDefects := .bool true } "span"
          (.failure (.die 7))).events = [DEFAULT_DEFECT_MESSAGE] ∧
      (useRunner (A := Nat) { toastifyDefects := .bool true } "span"
          (.failure (.die 7))).result =
        .rejectDefect ⟨Cause.squash (.die 7)⟩)) :=
  ⟨⟨rfl, rfl⟩,
    defect_notifications_follow_policy {} "span" (.die 7) "oops" rfl rfl⟩

/-- C6 counterexample: the claim "every outcome — success as well as typed
failure and defect — is unconditionally logged before any user-visible
notification effect fires" fails twice on the code.  A successful outcome
produces a success notification with no log event at all; and for a typed
failure the `notifyFailure` toast fires strictly before the diagnostic log
(`Effect.tapError` wraps the computation before
`Effect.tapErrorCause(Effect.logError)` does). -/
theorem unconditional_logging_counterexample :
    (useRunner (A := Nat) (D := Nat)
          { toastifySuccess := some (fun n => toString n) } "span"
          (.success 5)).events = [.toastSuccess "5"] ∧
    (useRunner (A := Nat) (D := Nat) {} "span"
          (.failure (.fail ⟨"X", some "boom", []⟩))).events =
      [.toastError "boom",
       .logErrorCause (.fail ⟨"X", some "boom", []⟩)] :=
  ⟨rfl, rfl⟩

/-- C6 amended: every failure outcome — typed failure or defect — logs the
full original cause exactly once before the promise settles, independently
of the notification configuration; the log precedes the defect-branch
notifications (everything after it is exactly the `settle` toasts) though
the typed-failure notifications precede the log; success outcomes are never
logged. -/
theorem failure_outcomes_always_logged {A D : Type} (opts : UseRunnerOpts A)
    (span : String) (cause : Cause D) (a : A) :
    countLogs (useRunner (D := D) opts span (.success a)).events = 0 ∧
    ∃ pre, (useRunner opts span (.failure cause)).events =
        pre ++ Event.logErrorCause cause :: (settle opts cause).1 ∧
      countLogs pre = 0 := by
  constructor
  · cases h : opts.toastifySuccess <;>
      simp [useRunner, successToasts, h, countLogs, isLogEvent]
  · exact ⟨tapErrorEvents opts cause, by simp [useRunner],
      countLogs_tapErrorEvents opts cause⟩

/-- C7: a successful outcome with value `v` resolves the promise with `v`;
when `toastifySuccess` is supplied, `notifySuccess` fires exactly once with
`toastifySuccess v` (the whole trace is that single event), and when it is
absent no notification fires at all. -/
theorem success_notification {A D : Type} (opts : UseRunnerOpts A)
    (span : String) (f : A → String) (v : A) :
    useRunner (D := D) { opts with toastifySuccess := some f } span
        (.success v) = ⟨[.toastSuccess (f v)], .resolve v⟩ ∧
    useRunner (D := D) { opts with toastifySuccess := none } span
        (.success v) = ⟨[], .resolve v⟩ :=
  ⟨rfl, rfl⟩

/-- C8: any failure cause that is not exactly a single `Fail` node —
including composite causes that contain a typed failure alongside another
cause — is classified as a defect: the promise never rejects with a
contained typed failure, it rejects with the `QueryDefect`. -/
theorem composite_cause_defect_classification {A D : Type}
    (opts : UseRunnerOpts A) (span : String) (cause : Cause D)
    (h : cause.isFailType = false) :
    (∀ e, (useRunner opts span (.failure cause)).result ≠ .rejectError e) ∧
    (useRunner opts span (.failure cause)).result =
      .rejectDefect ⟨cause.squash⟩ := by
  have hs := settle_of_not_failType opts cause h
  exact ⟨fun e => by simp [useRunner, hs], by simp [useRunner, hs]⟩

theorem composite_cause_defect_classification_witness :
    Cause.isFailType
        (Cause.sequential (.fail ⟨"X", some "boom", []⟩)
          (.die (7 : Nat))) = false ∧
    ((∀ e, (useRunner (A := Nat) {} "span"
          (.failure (.sequential (.fail ⟨"X", some "boom", []⟩)
            (.die 7)))).result ≠ .rejectError e) ∧
      (useRunner (A := Nat) {} "span"
          (.failure (.sequential (.fail ⟨"X", some "boom", []⟩)
            (.die 7)))).result =
        .rejectDefect ⟨Cause.squash
          (.sequential (.fail ⟨"X", some "boom", []⟩) (.die 7))⟩) :=
  ⟨rfl, composite_cause_defect_classification {} "span" _ rfl⟩

/-- C9: when the single-fetch adapter's `queryFn` is the `skipToken`
sentinel, `useEffectQuery` forwards the sentinel to the fetching library
unchanged (no bridge-wrapped function is ever built into the forwarded
options), so under the library's skip contract no computation is run and no
events — hence no notifications — are produced for the query. -/
theorem skip_sentinel_single_fetch {A D Ctx : Type} (opts : UseRunnerOpts A)
    (spanName : String) :
    useEffectQueryQueryFn opts spanName
        (.skipToken : QueryFnOpt A D Ctx) = .skipToken ∧
    (∀ context : Ctx,
      libFetch (useEffectQueryQueryFn opts spanName
        (.skipToken : QueryFnOpt A D Ctx)) context = none) ∧
    (∀ context : Ctx,
      fetchEvents (useEffectQueryQueryFn opts spanName
        (.skipToken : QueryFnOpt A D Ctx)) context = []) :=
  ⟨rfl, fun _ => rfl, fun _ => rfl⟩

/-- C10: the paginated-fetch adapter honors the skip sentinel identically:
when `useEffectInfiniteQuery`'s `queryFn` is the `skipToken` sentinel it is
forwarded to the fetching library unchanged, so no page computation is
constructed or run and no events are produced. -/
theorem skip_sentinel_infinite_fetch {A D Ctx : Type}
    (opts : UseRunnerOpts A) (spanName : String) :
    useEffectInfiniteQueryQueryFn opts spanName
        (.skipToken : QueryFnOpt A D Ctx) = .skipToken ∧
    (∀ context : Ctx,
      libFetch (useEffectInfiniteQueryQueryFn opts spanName
        (.skipToken : QueryFnOpt A D Ctx)) context = none) ∧
    (∀ context : Ctx,
      fetchEvents (useEffectInfiniteQueryQueryFn opts spanName
        (.skipToken : QueryFnOpt A D Ctx)) context = []) :=
  ⟨rfl, fun _ => rfl, fun _ => rfl⟩

end EffectQuery
